import Mathlib

/-!
Verification of the blog-generation pipeline:
`src/blog_generator.py` (BlogGenerator), `main.py`
(EnhancedBlogGenerationPipeline), `airtable_blog_writer.py`
(AirtableBlogWriter) and `src/sheets_writer.py` (SheetsWriter).

The Python code is shallowly embedded: pandas DataFrames become lists of
records (with a table-level flag recording whether a column is present,
since `row.get(col, default)` tolerates an absent column while `df[col]`
raises `KeyError`); the OpenAI completion call becomes an explicit
function argument returning `Except`; the two pseudo-random
`DataFrame.sample` draws made during one `generate_blog` call become two
explicit list arguments (constrained, where a theorem needs it, by the
`IsSample` predicate); exceptions become `Except` / explicit branching,
and the `try/except` of `generate_blog` becomes the total function
`generate_blog` whose catch-all branch builds the fixed failure record.
Monetary amounts are embedded as exact rationals.

Python string methods (`split`, `startswith`, `replace`, `strip`) are
embedded as structural functions on `List Char` with Python semantics,
so that concrete executions reduce inside the kernel.
-/

/-! ## Python string primitives -/

/-- Python `str` whitespace set used by `strip()` / `split()`. -/
def pyIsSpace (c : Char) : Bool :=
  c = ' ' || c = '\t' || c = '\n' || c = '\r' || c = '\x0b' || c = '\x0c'

/-- Python `s.split(sep)` for a one-character separator: splits at every
occurrence, keeping empty fields. -/
def pySplit (sep : Char) : List Char → List (List Char)
  | [] => [[]]
  | c :: cs =>
    match pySplit sep cs with
    | [] => if c = sep then [[], []] else [[c]]
    | g :: gs => if c = sep then [] :: g :: gs else (c :: g) :: gs

/-- Python `s.startswith(pre)`. -/
def pyStartsWith : List Char → List Char → Bool
  | [], _ => true
  | _ :: _, [] => false
  | p :: ps, c :: cs => p = c && pyStartsWith ps cs

/-- Worker for `pyReplace`; the fuel argument makes the recursion
structural (one unit of fuel per examined position suffices). -/
def pyReplaceAux (pat repl : List Char) : Nat → List Char → List Char
  | _, [] => []
  | 0, s => s
  | fuel + 1, c :: cs =>
    if pyStartsWith pat (c :: cs) && !pat.isEmpty then
      repl ++ pyReplaceAux pat repl fuel (List.drop (pat.length - 1) cs)
    else
      c :: pyReplaceAux pat repl fuel cs

/-- Python `s.replace(pat, repl)` for a non-empty pattern: replaces every
non-overlapping occurrence, scanning left to right. -/
def pyReplace (pat repl s : List Char) : List Char :=
  pyReplaceAux pat repl s.length s

/-- Python `s.strip()`: drop leading and trailing whitespace. -/
def pyStrip (s : List Char) : List Char :=
  ((s.dropWhile pyIsSpace).reverse.dropWhile pyIsSpace).reverse

/-- Worker for `pySplitWs`; `cur` holds the reversed word being read. -/
def pySplitWsAux : List Char → List Char → List (List Char)
  | cur, [] => if cur.isEmpty then [] else [cur.reverse]
  | cur, c :: cs =>
    if pyIsSpace c then
      if cur.isEmpty then pySplitWsAux [] cs
      else cur.reverse :: pySplitWsAux [] cs
    else pySplitWsAux (c :: cur) cs

/-- Python `s.split()` with no argument: split on whitespace runs,
discarding empty fields. -/
def pySplitWs (s : List Char) : List (List Char) :=
  pySplitWsAux [] s

/-! ## Data model -/

/-- A row of the `key topics` sheet, accessed in the source only through
`topic_data.get(key, default)`; an absent key yields the default, which
we model with `Option` fields. -/
structure TopicData where
  topic : Option String
  description : Option String
  sourceUrl : Option String
deriving DecidableEq, Repr

/-- A row of the `Website` sheet. The field values are only meaningful
when the corresponding column exists in the table (see `LinksTable`). -/
structure Link where
  name : String
  url : String
deriving DecidableEq, Repr

/-- The `Website` sheet. `hasName` / `hasURL` record whether the `Name` /
`URL` columns exist: `row.get('Name', 'Link')` falls back to the default
when the column is absent, while `df['Name']` raises `KeyError`. -/
structure LinksTable where
  hasName : Bool
  hasURL : Bool
  rows : List Link
deriving DecidableEq, Repr

/-- `row.get('Name', 'Link')` as used at blog_generator.py line 70. -/
def LinksTable.getName (t : LinksTable) (l : Link) : String :=
  if t.hasName then l.name else "Link"

/-- `row.get('URL', '')` as used at blog_generator.py line 70. -/
def LinksTable.getURL (t : LinksTable) (l : Link) : String :=
  if t.hasURL then l.url else ""

/-- The `usage` object of a completion response, with the three keys the
source reads (`prompt_tokens`, `completion_tokens`, `total_tokens`).
The external service chooses the values; nothing forces
`total_tokens = prompt_tokens + completion_tokens`. -/
structure Usage where
  prompt_tokens : Nat
  completion_tokens : Nat
  total_tokens : Nat
deriving DecidableEq, Repr

/-- A completion response: `response["choices"][0]["message"]["content"]`
and the optional `response["usage"]`. -/
structure ChatResponse where
  content : String
  usage : Option Usage
deriving Repr

/-- The external completion capability
(`openai.ChatCompletion.create`), keyed by model name, system message,
user prompt and `max_tokens`; an exception becomes `Except.error`. -/
def Completion : Type :=
  String → String → String → Nat → Except String ChatResponse

/-- The `status` field of a generation result. -/
inductive Status where
  | success
  | failed
deriving DecidableEq, Repr

/-- The result dictionary returned by `BlogGenerator.generate_blog`.
The failure dictionary (lines 239-249) omits the keyword/link/word-count
keys; every downstream read of those keys uses `.get` with defaults
`[]` / `0`, so the omission is embedded as those default values. -/
structure BlogResult where
  topic : String
  content : String
  seo_keywords_used : List String
  llm_keywords_used : List String
  links_used : List String
  word_count : Nat
  model_used : String
  input_tokens : Nat
  output_tokens : Nat
  total_tokens : Nat
  cost : ℚ
  status : Status
  error : Option String
deriving DecidableEq, Repr

/-- The lifetime accumulators of a `BlogGenerator` instance
(`self.total_input_tokens`, `self.total_output_tokens`,
`self.total_cost`). -/
structure EngineState where
  total_input_tokens : Nat
  total_output_tokens : Nat
  total_cost : ℚ
deriving DecidableEq, Repr

/-- Fresh engine (constructor of `BlogGenerator`). -/
def EngineState.init : EngineState := ⟨0, 0, 0⟩

/-! ## BlogGenerator -/

/-- `count_tokens` (lines 41-49): the tiktoken encoder is an external
optional capability; when absent (or failing) the source falls back to
`len(text) // 4`. -/
def count_tokens (tiktokenEnc : Option (String → Nat)) (text : String) : Nat :=
  match tiktokenEnc with
  | some enc => enc text
  | none => text.length / 4

/-- Per-token input rate of `self.pricing` (lines 30-39), in USD. -/
def pricingInput (model : String) : ℚ :=
  if model = "gpt-4o" then (5 : ℚ) / 1000000
  else if model = "gpt-3.5-turbo" then (5 : ℚ) / 10000000
  else 0

/-- Per-token output rate of `self.pricing` (lines 30-39), in USD. -/
def pricingOutput (model : String) : ℚ :=
  if model = "gpt-4o" then (15 : ℚ) / 1000000
  else if model = "gpt-3.5-turbo" then (15 : ℚ) / 10000000
  else 0

/-- Membership test `model not in self.pricing` (line 53). -/
def inPricing (model : String) : Bool :=
  model = "gpt-4o" || model = "gpt-3.5-turbo"

/-- `calculate_cost` (lines 51-57): unknown models fall back to the
`gpt-4o` rates. -/
def calculate_cost (input_tokens output_tokens : Nat) (model : String) : ℚ :=
  let m := if inPricing model then model else "gpt-4o"
  input_tokens * pricingInput m + output_tokens * pricingOutput m

/-- The bulleted link block of the prompt (lines 69-71), rendered from
one sampled subset of the link table. -/
def links_text (t : LinksTable) (sampled : List Link) : String :=
  String.intercalate "\n"
    (sampled.map (fun l => s!"- {t.getName l}: {t.getURL l}"))

/-- `create_blog_prompt` (lines 59-162): the fixed template with the
topic fields, the first five keywords of each collection and the
bulleted block for the sampled links interpolated. -/
def create_blog_prompt (topic_data : TopicData)
    (seo_keywords llm_keywords : List String)
    (website_links : LinksTable) (sampled : List Link) : String :=
  let topic := topic_data.topic.getD "AI Technology"
  let description := topic_data.description.getD ""
  let source := topic_data.sourceUrl.getD ""
  let seoJoined := String.intercalate ", " (seo_keywords.take 5)
  let llmJoined := String.intercalate ", " (llm_keywords.take 5)
  let linksBlock := links_text website_links sampled
  s!"
Write a comprehensive, SEO-optimized blog post about \"{topic}\".

TOPIC DETAILS:
- Main Topic: {topic}
- Context: {description}
- Reference: {source}

IMPORTANT: Never hallucinate statistics or numbers. Only use verified information.

SEO REQUIREMENTS:
- Target these SEO keywords naturally: {seoJoined}
- Include these LLM-optimized phrases: {llmJoined}
- Target 90+ SEMrush SEO score
- 1500-2000 words
- Keyword density: 1-2%

CONTENT STRUCTURE:
1. Compelling meta title (max 60 characters)
2. Meta description (max 160 characters)
3. H1 title
4. Introduction with hook
5. 4-5 H2 sections with H3 subsections
6. Include these internal links naturally:
{linksBlock}
7. Add [IMAGE PLACEHOLDER: descriptive alt text] in 3 relevant places
8. FAQ section with 5 questions
9. Strong conclusion with CTA

WRITING STYLE:
- Professional but engaging
- Clear, actionable insights
- Include statistics and examples (only verified ones)
- Optimize for both human readers and AI search
- Use transition words for flow
- Include bullet points and numbered lists where appropriate

OUTPUT FORMAT:

```
META_TITLE: [60 char title]
META_DESCRIPTION: [160 char description]

# [H1 Title]

[Introduction paragraph with hook]

## [H2 Section 1]
[Content with H3 subsections if needed]
[IMAGE PLACEHOLDER: descriptive alt text]

## [H2 Section 2]
[Content]

## [H2 Section 3]
[Content]
[IMAGE PLACEHOLDER: descriptive alt text]

## [H2 Section 4]
[Content]

## [H2 Section 5]
[Content]
[IMAGE PLACEHOLDER: descriptive alt text]

## Frequently Asked Questions

**Q1: [Question]**
A: [Answer]

**Q2: [Question]**
A: [Answer]

**Q3: [Question]**
A: [Answer]

**Q4: [Question]**
A: [Answer]

**Q5: [Question]**
A: [Answer]

## Conclusion

[Strong conclusion with clear CTA]
```

Generate the complete blog post following this structure exactly.
"

/-- The system message of lines 171. -/
def system_message : String :=
  "You are an expert SEO blog writer specializing in AI and technology content."

/-- The ordered candidate list `models_to_try` (line 176). -/
def models_to_try : List String := ["gpt-4o", "gpt-3.5-turbo"]

/-- Per-model `max_tokens` argument (line 189). -/
def maxTokensFor (m : String) : Nat :=
  if m = "gpt-3.5-turbo" then 3000 else 4000

/-- The fallback loop of lines 178-197: try each candidate in order,
keep the first successful response together with the model that served
it; individual errors are only logged and are discarded. -/
def attemptModels (complete : Completion) (prompt : String) :
    List String → Option (ChatResponse × String)
  | [] => none
  | m :: ms =>
    match complete m system_message prompt (maxTokensFor m) with
    | Except.ok response => some (response, m)
    | Except.error _ => attemptModels complete prompt ms

/-- The failure dictionary of lines 239-249 (fields absent from the
dictionary are embedded as the defaults every reader supplies). -/
def failedResult (topic_data : TopicData) (e : String) : BlogResult :=
  { topic := topic_data.topic.getD "Unknown"
    content := ""
    seo_keywords_used := []
    llm_keywords_used := []
    links_used := []
    word_count := 0
    model_used := "unknown"
    input_tokens := 0
    output_tokens := 0
    total_tokens := 0
    cost := 0
    status := Status.failed
    error := some e }

/-- `generate_blog` (lines 164-249). The two pseudo-random
`website_links.sample(min(3, len(website_links)))` draws (line 68 inside
`create_blog_prompt`, and line 227 inside the success dictionary) are
passed explicitly as `sample1` and `sample2`. Exceptions inside the
`try` body fall through to the `failedResult` branch; note that the
`KeyError` of `df['Name']` at line 227 fires after the lifetime
accumulators were already updated (lines 211-213), so that branch
returns the updated engine state with a failed result. The embedding
does not reproduce the textual rendering of Python exception messages;
it uses the fixed strings "KeyError: usage" and "KeyError: Name" for
the two modelled `KeyError` sites. -/
def generate_blog (engine : EngineState) (topic_data : TopicData)
    (seo_keywords llm_keywords : List String) (website_links : LinksTable)
    (tiktokenEnc : Option (String → Nat)) (complete : Completion)
    (sample1 sample2 : List Link) : EngineState × BlogResult :=
  let topic_name := topic_data.topic.getD "Unknown"
  let prompt :=
    create_blog_prompt topic_data seo_keywords llm_keywords website_links sample1
  let _estimated_input_tokens := count_tokens tiktokenEnc (system_message ++ prompt)
  match attemptModels complete prompt models_to_try with
  | none =>
    -- `raise RuntimeError("All models failed")` (line 200), caught at 237.
    (engine, failedResult topic_data "All models failed")
  | some (response, model) =>
    let blog_content := response.content
    match response.usage with
    | none =>
      -- `response["usage"]` (line 204) raises KeyError, caught at 237.
      (engine, failedResult topic_data "KeyError: usage")
    | some usage =>
      let actual_input_tokens := usage.prompt_tokens
      let actual_output_tokens := usage.completion_tokens
      let total_tokens := usage.total_tokens
      let cost := calculate_cost actual_input_tokens actual_output_tokens model
      let engine' : EngineState :=
        { total_input_tokens := engine.total_input_tokens + actual_input_tokens
          total_output_tokens := engine.total_output_tokens + actual_output_tokens
          total_cost := engine.total_cost + cost }
      if website_links.hasName then
        (engine',
         { topic := topic_name
           content := blog_content
           seo_keywords_used := seo_keywords.take 5
           llm_keywords_used := llm_keywords.take 5
           links_used := sample2.map Link.name
           word_count := (pySplitWs blog_content.data).length
           model_used := model
           input_tokens := actual_input_tokens
           output_tokens := actual_output_tokens
           total_tokens := total_tokens
           cost := cost
           status := Status.success
           error := none })
      else
        -- `website_links.sample(...)['Name']` (line 227) raises KeyError
        -- after the accumulators were updated; caught at 237.
        (engine', failedResult topic_data "KeyError: Name")

/-- `DataFrame.sample(n)` with `n = min 3 (population length)` draws `n`
distinct rows (by position) in pseudo-random order: the result is a
permutation of a sublist of the population, of that exact length. -/
def IsSample (population s : List Link) : Prop :=
  s.Subperm population ∧ s.length = min 3 population.length

/-! ## Meta extraction (airtable_blog_writer.py and sheets_writer.py) -/

/-- The sections dictionary of `AirtableBlogWriter.extract_blog_sections`. -/
structure BlogSections where
  meta_title : String
  meta_description : String
  main_content : String
deriving DecidableEq, Repr

/-- One line of the scanning loop shared by both extractors
(airtable_blog_writer.py lines 37-41, sheets_writer.py lines 138-142):
a `META_TITLE:` line overwrites the title accumulator, otherwise a
`META_DESCRIPTION:` line overwrites the description accumulator. -/
def metaScanLine (acc : String × String) (line : List Char) : String × String :=
  if pyStartsWith "META_TITLE:".data line then
    (String.mk (pyStrip (pyReplace "META_TITLE:".data [] line)), acc.2)
  else if pyStartsWith "META_DESCRIPTION:".data line then
    (acc.1, String.mk (pyStrip (pyReplace "META_DESCRIPTION:".data [] line)))
  else
    acc

/-- The shared scanning loop over all lines of the content. -/
def metaScan (blog_content : String) : String × String :=
  (pySplit '\n' blog_content.data).foldl metaScanLine ("", "")

/-- `AirtableBlogWriter.extract_blog_sections` (lines 27-43). -/
def extract_blog_sections (blog_content : String) : BlogSections :=
  let scanned := metaScan blog_content
  { meta_title := scanned.1
    meta_description := scanned.2
    main_content := blog_content }

/-- `SheetsWriter.extract_meta_from_blog` (lines 132-144). -/
def extract_meta_from_blog (blog_content : String) : String × String :=
  metaScan blog_content

/-- Modelled from the spec: the "first wins" extraction policy of spec
section 6 ("any consumer extracting these must scan line-by-line and
take the first match of each"), to be compared with the loops the
source actually runs. -/
def firstMatchMeta (blog_content : String) : String × String :=
  let lines := pySplit '\n' blog_content.data
  let firstTitle := lines.find? (fun l => pyStartsWith "META_TITLE:".data l)
  let firstDesc := lines.find? (fun l => pyStartsWith "META_DESCRIPTION:".data l)
  (match firstTitle with
    | some l => String.mk (pyStrip (pyReplace "META_TITLE:".data [] l))
    | none => "",
   match firstDesc with
    | some l => String.mk (pyStrip (pyReplace "META_DESCRIPTION:".data [] l))
    | none => "")

/-- The value kept for one sentinel kind by a scan in which every
matching line overwrites the previous value: the last match wins, and
the accumulator value `acc` survives only when no line matches. -/
def lastValue (pat : List Char) (acc : String) (ls : List (List Char)) : String :=
  match ls.getLast? with
  | some l => String.mk (pyStrip (pyReplace pat [] l))
  | none => acc

/-- The lines the title branch of the scan fires on. -/
def titleLines (lines : List (List Char)) : List (List Char) :=
  lines.filter (fun l => pyStartsWith "META_TITLE:".data l)

/-- The lines the description branch of the scan fires on (the `elif`
runs only when the title branch did not). -/
def descLines (lines : List (List Char)) : List (List Char) :=
  lines.filter (fun l =>
    !pyStartsWith "META_TITLE:".data l &&
      pyStartsWith "META_DESCRIPTION:".data l)

/-- The value the source loops actually keep: the last matching line of
each kind (each match overwrites the accumulator). -/
def lastMatchMeta (blog_content : String) : String × String :=
  let lines := pySplit '\n' blog_content.data
  (lastValue "META_TITLE:".data "" (titleLines lines),
   lastValue "META_DESCRIPTION:".data "" (descLines lines))

/-! ## EnhancedBlogGenerationPipeline (main.py) -/

/-- A generation result after the pipeline stamps it (main.py lines
91-92): generation timestamp and 1-based sequence index. -/
structure StampedResult where
  result : BlogResult
  generated_at : String
  blog_index : Nat
deriving DecidableEq, Repr

/-- Pipeline-owned state: running totals (lines 26-28) and the internal
result list (line 23). -/
structure PipelineState where
  total_input_tokens : Nat
  total_output_tokens : Nat
  total_cost : ℚ
  results : List StampedResult
deriving DecidableEq, Repr

/-- Fresh pipeline (constructor lines 17-28). -/
def PipelineState.init : PipelineState := ⟨0, 0, 0, []⟩

/-- One observable sink invocation of the loop body: the per-blog report
file write (lines 109-124) or the Airtable append (line 131). -/
inductive SinkEvent where
  | fileWrite (filename : String)
  | airtableWrite (topic : String)
deriving DecidableEq, Repr

/-- The per-call external environment of one loop iteration: the
completion capability, the two sample draws and `datetime.now()`. -/
structure CallEnv where
  complete : Completion
  sample1 : List Link
  sample2 : List Link
  now : String

/-- `str.replace` specialised to single characters (used for
`safe_topic`). -/
def pyReplaceChar (a b : Char) (s : List Char) : List Char :=
  s.map (fun c => if c = a then b else c)

/-- `f"{i + 1:02d}"`: decimal, left-padded with zeros to width 2. -/
def pad2 (n : Nat) : String :=
  if n < 10 then "0" ++ toString n else toString n

/-- The per-blog report filename of main.py lines 104-105. -/
def blogFilename (i : Nat) (topic_name : String) : String :=
  let safe_topic := String.mk
    ((pyReplaceChar '/' '_' (pyReplaceChar ' ' '_' topic_name.data)).take 30)
  s!"generated_blogs/blog_{pad2 (i + 1)}_{safe_topic}.txt"

/-- One iteration of the `generate_blogs` loop (main.py lines 77-134):
call the engine, stamp the result, update the running totals for
successes only, append to the result list, and for successes only emit
the file-report write followed by the Airtable append. -/
def pipelineStep (st : PipelineState) (engine : EngineState)
    (topic_data : TopicData) (seo_keywords llm_keywords : List String)
    (website_links : LinksTable) (tiktokenEnc : Option (String → Nat))
    (cenv : CallEnv) (i : Nat) :
    PipelineState × EngineState × List SinkEvent :=
  let topic_name := topic_data.topic.getD "Unknown"
  let out := generate_blog engine topic_data seo_keywords llm_keywords
    website_links tiktokenEnc cenv.complete cenv.sample1 cenv.sample2
  let result := out.2
  let stamped : StampedResult :=
    { result := result, generated_at := cenv.now, blog_index := i + 1 }
  let totalsUpdated : PipelineState :=
    if result.status = Status.success then
      { st with
        total_input_tokens := st.total_input_tokens + result.input_tokens
        total_output_tokens := st.total_output_tokens + result.output_tokens
        total_cost := st.total_cost + result.cost }
    else st
  let st' := { totalsUpdated with results := totalsUpdated.results ++ [stamped] }
  let events :=
    if result.status = Status.success then
      [SinkEvent.fileWrite (blogFilename i topic_name),
       SinkEvent.airtableWrite result.topic]
    else []
  (st', out.1, events)

/-- The loop of main.py lines 77-134 over the first `n` topics, with the
iteration index threaded through. -/
def runBatch (seo_keywords llm_keywords : List String)
    (website_links : LinksTable) (tiktokenEnc : Option (String → Nat))
    (env : Nat → CallEnv) :
    Nat → List TopicData → PipelineState → EngineState →
    PipelineState × EngineState × List SinkEvent
  | _, [], st, engine => (st, engine, [])
  | i, td :: tds, st, engine =>
    let step := pipelineStep st engine td seo_keywords llm_keywords
      website_links tiktokenEnc (env i) i
    let rest := runBatch seo_keywords llm_keywords website_links tiktokenEnc
      env (i + 1) tds step.1 step.2.1
    (rest.1, rest.2.1, step.2.2 ++ rest.2.2)

/-- `generate_blogs` (main.py lines 62-136): `num_blogs=None` defaults
to `min(5, total_topics)`, an explicit count is clamped to the corpus
size, and the loop runs over the first `num_blogs` topics in corpus
order. -/
def generate_blogs (st : PipelineState) (engine : EngineState)
    (key_topics : List TopicData) (seo_keywords llm_keywords : List String)
    (website_links : LinksTable) (tiktokenEnc : Option (String → Nat))
    (env : Nat → CallEnv) (num_blogs : Option Nat) :
    PipelineState × EngineState × List SinkEvent :=
  let total_topics := key_topics.length
  let n :=
    match num_blogs with
    | none => min 5 total_topics
    | some k => min k total_topics
  runBatch seo_keywords llm_keywords website_links tiktokenEnc env 0
    (key_topics.take n) st engine

/-! ## save_enhanced_summary (main.py lines 138-164) -/

/-- Python `round(x, 4)` (embedded with mathematical rounding of the
exact rational; the guarded branches proved below never reach it with a
non-zero argument anyway). -/
def round4 (q : ℚ) : ℚ := (round (q * 10000) : ℤ) / 10000

/-- The `generation_summary` block of the summary dictionary. -/
structure GenerationSummary where
  total_blogs_attempted : Nat
  successful_blogs : Nat
  failed_blogs : Nat
  total_input_tokens : Nat
  total_output_tokens : Nat
  total_tokens : Nat
  total_cost : ℚ
  average_cost_per_blog : ℚ
  cost_per_1k_tokens : ℚ
deriving DecidableEq, Repr

/-- The `generation_summary` dictionary built at main.py lines 148-162:
the two ratio fields are guarded by `if successful_blogs` (list
truthiness) and by `if (total input + output tokens) > 0`. -/
def generationSummaryOf (st : PipelineState) : GenerationSummary :=
  let successful_blogs :=
    st.results.filter (fun r => r.result.status = Status.success)
  let failed_blogs :=
    st.results.filter (fun r => r.result.status = Status.failed)
  let totalTokens := st.total_input_tokens + st.total_output_tokens
  { total_blogs_attempted := st.results.length
    successful_blogs := successful_blogs.length
    failed_blogs := failed_blogs.length
    total_input_tokens := st.total_input_tokens
    total_output_tokens := st.total_output_tokens
    total_tokens := totalTokens
    total_cost := round4 st.total_cost
    average_cost_per_blog :=
      if !successful_blogs.isEmpty then
        round4 (st.total_cost / successful_blogs.length)
      else 0
    cost_per_1k_tokens :=
      if totalTokens > 0 then
        round4 (st.total_cost * 1000 / totalTokens)
      else 0 }

/-- `save_enhanced_summary` (lines 138-164): on an empty result list the
method prints "No results to save" and returns without producing any
summary (`none` here); otherwise it writes the summary built by
`generationSummaryOf`. -/
def save_enhanced_summary (st : PipelineState) : Option GenerationSummary :=
  if st.results.isEmpty then none
  else some (generationSummaryOf st)

/-! ## Concrete fixtures for witnesses and counterexamples -/

/-- A concrete topic row. -/
def tdEdge : TopicData := ⟨some "Edge AI", some "desc", some "src"⟩

/-- Concrete link rows. -/
def linkA : Link := ⟨"A", "https://a"⟩

def linkB : Link := ⟨"B", "https://b"⟩

def linkC : Link := ⟨"C", "https://c"⟩

def linkD : Link := ⟨"D", "https://d"⟩

/-- A four-row `Website` sheet with both columns present. -/
def tbl4 : LinksTable := ⟨true, true, [linkA, linkB, linkC, linkD]⟩

/-- The same rows but with the `Name` column absent. -/
def tblNoName : LinksTable := ⟨false, true, [linkA, linkB, linkC, linkD]⟩

/-- A completion capability on which every call fails. -/
def completeFailAll : Completion := fun _ _ _ _ => Except.error "boom"

/-- A completion capability on which each candidate fails with its own
error; the last candidate (`gpt-3.5-turbo`) fails with "quota error". -/
def completeTwoErrors : Completion := fun m _ _ _ =>
  if m = "gpt-4o" then Except.error "auth error" else Except.error "quota error"

/-- A well-formed successful response: content plus consistent usage. -/
def respUsage52 : ChatResponse := ⟨"hello world", some ⟨50, 2, 52⟩⟩

/-- A completion capability that always returns `respUsage52`. -/
def completeOk52 : Completion := fun _ _ _ _ => Except.ok respUsage52

/-- A response with content but no `usage` field. -/
def respNoUsage : ChatResponse := ⟨"hello world", none⟩

/-- A completion capability that always returns `respNoUsage`. -/
def completeNoUsage : Completion := fun _ _ _ _ => Except.ok respNoUsage

/-- A response whose usage reports `total_tokens` different from
`prompt_tokens + completion_tokens`. -/
def respBadTotal : ChatResponse := ⟨"hello world", some ⟨1, 2, 5⟩⟩

/-- A completion capability that always returns `respBadTotal`. -/
def completeBadTotal : Completion := fun _ _ _ _ => Except.ok respBadTotal

/-- A per-iteration environment on which every completion call fails. -/
def envAllFail : Nat → CallEnv :=
  fun _ => ⟨completeFailAll, [], [], "2026-01-01 00:00:00"⟩

/-- A corpus of six topics. -/
def sixTopics : List TopicData :=
  [⟨some "T1", none, none⟩, ⟨some "T2", none, none⟩, ⟨some "T3", none, none⟩,
   ⟨some "T4", none, none⟩, ⟨some "T5", none, none⟩, ⟨some "T6", none, none⟩]

/-- First sample draw of the C2 counterexample run. -/
def s1cx : List Link := [linkA, linkB, linkC]

/-- Second sample draw of the C2 counterexample run. -/
def s2cx : List Link := [linkB, linkC, linkD]

/-- A pipeline state holding exactly one stamped failed result. -/
def stOneFailed : PipelineState :=
  ⟨0, 0, 0, [⟨failedResult tdEdge "boom", "2026-01-01 00:00:00", 1⟩]⟩

/-- Content carrying duplicate meta sentinel lines. -/
def metaDupContent : String :=
  "META_TITLE: A\nMETA_TITLE: B\nMETA_DESCRIPTION: X\nMETA_DESCRIPTION: Y\n\nBody"

/-! ## Helper lemmas -/

/-- If every candidate model fails, the fallback loop yields no response. -/
theorem attemptModels_eq_none (complete : Completion) (prompt : String)
    (ms : List String)
    (h : ∀ m ∈ ms, ∃ e,
      complete m system_message prompt (maxTokensFor m) = Except.error e) :
    attemptModels complete prompt ms = none := by
  induction ms with
  | nil => rfl
  | cons m ms ih =>
    obtain ⟨e, he⟩ := h m (by simp)
    unfold attemptModels
    rw [he]
    exact ih (fun m' hm' => h m' (by simp [hm']))

/-- The response kept by the fallback loop really came from the model
recorded next to it. -/
theorem attemptModels_ok (complete : Completion) (prompt : String) :
    ∀ {ms : List String} {resp : ChatResponse} {m : String},
      attemptModels complete prompt ms = some (resp, m) →
      complete m system_message prompt (maxTokensFor m) = Except.ok resp := by
  intro ms
  induction ms with
  | nil => intro resp m h; simp [attemptModels] at h
  | cons m' ms ih =>
    intro resp m h
    unfold attemptModels at h
    cases hc : complete m' system_message prompt (maxTokensFor m') with
    | ok r =>
      rw [hc] at h
      simp only [Option.some.injEq, Prod.mk.injEq] at h
      obtain ⟨hr, hm⟩ := h
      subst hr
      subst hm
      exact hc
    | error e =>
      rw [hc] at h
      exact ih h

/-! ## Claim theorems -/

/-- C6: `generate_blog` is a total function (every failure mode of the
`try` body lands in the catch-all failure record, never in an exception
to the caller), and every returned result with `status=failed` has empty
content, zero cost, zero input and output tokens, and the error field
set. -/
theorem generate_blog_failed_invariant
    (engine : EngineState) (td : TopicData) (seo llm : List String)
    (links : LinksTable) (tz : Option (String → Nat)) (complete : Completion)
    (s1 s2 : List Link)
    (hf : (generate_blog engine td seo llm links tz complete s1 s2).2.status
      = Status.failed) :
    (generate_blog engine td seo llm links tz complete s1 s2).2.content = "" ∧
    (generate_blog engine td seo llm links tz complete s1 s2).2.cost = 0 ∧
    (generate_blog engine td seo llm links tz complete s1 s2).2.input_tokens = 0 ∧
    (generate_blog engine td seo llm links tz complete s1 s2).2.output_tokens = 0 ∧
    (generate_blog engine td seo llm links tz complete s1 s2).2.error.isSome = true := by
  rcases h1 : attemptModels complete (create_blog_prompt td seo llm links s1)
      models_to_try with _ | ⟨resp, m⟩
  · simp [generate_blog, h1, failedResult]
  · rcases h2 : resp.usage with _ | u
    · simp [generate_blog, h1, h2, failedResult]
    · cases h3 : links.hasName with
      | false => simp [generate_blog, h1, h2, h3, failedResult]
      | true =>
        exfalso
        simp [generate_blog, h1, h2, h3] at hf

/-- Witness for C6 at a fully failing completion capability. -/
theorem generate_blog_failed_invariant_witness :
    (generate_blog EngineState.init tdEdge ["k1"] ["j1"] tbl4 none
      completeFailAll [] []).2.content = "" ∧
    (generate_blog EngineState.init tdEdge ["k1"] ["j1"] tbl4 none
      completeFailAll [] []).2.cost = 0 ∧
    (generate_blog EngineState.init tdEdge ["k1"] ["j1"] tbl4 none
      completeFailAll [] []).2.input_tokens = 0 ∧
    (generate_blog EngineState.init tdEdge ["k1"] ["j1"] tbl4 none
      completeFailAll [] []).2.output_tokens = 0 ∧
    (generate_blog EngineState.init tdEdge ["k1"] ["j1"] tbl4 none
      completeFailAll [] []).2.error.isSome = true :=
  generate_blog_failed_invariant EngineState.init tdEdge ["k1"] ["j1"] tbl4
    none completeFailAll [] [] rfl

/-- C3 (amended): when every candidate model fails, the result has
`status=failed` and its error field is the fixed message
"All models failed" (the per-candidate errors are only logged, then
discarded by the fallback loop). -/
theorem generate_blog_all_models_failed
    (engine : EngineState) (td : TopicData) (seo llm : List String)
    (links : LinksTable) (tz : Option (String → Nat)) (complete : Completion)
    (s1 s2 : List Link)
    (h : ∀ m ∈ models_to_try, ∃ e,
      complete m system_message (create_blog_prompt td seo llm links s1)
        (maxTokensFor m) = Except.error e) :
    (generate_blog engine td seo llm links tz complete s1 s2).2.status
      = Status.failed ∧
    (generate_blog engine td seo llm links tz complete s1 s2).2.error
      = some "All models failed" := by
  have h1 := attemptModels_eq_none complete
    (create_blog_prompt td seo llm links s1) models_to_try h
  simp [generate_blog, h1, failedResult]

/-- Witness for C3 (amended). -/
theorem generate_blog_all_models_failed_witness :
    (generate_blog EngineState.init tdEdge ["k1"] ["j1"] tbl4 none
      completeFailAll [] []).2.status = Status.failed ∧
    (generate_blog EngineState.init tdEdge ["k1"] ["j1"] tbl4 none
      completeFailAll [] []).2.error = some "All models failed" :=
  generate_blog_all_models_failed EngineState.init tdEdge ["k1"] ["j1"] tbl4
    none completeFailAll [] [] (fun _ _ => ⟨"boom", rfl⟩)

/-- Counterexample to C3 as stated: both candidates fail, the last one
with "quota error", yet the returned error field is the fixed message
"All models failed", not the last candidate error. -/
theorem generate_blog_last_error_cx :
    (generate_blog EngineState.init tdEdge ["k1"] ["j1"] tbl4 none
      completeTwoErrors [] []).2.error = some "All models failed" ∧
    (generate_blog EngineState.init tdEdge ["k1"] ["j1"] tbl4 none
      completeTwoErrors [] []).2.error ≠ some "quota error" :=
  ⟨rfl,
   (by decide :
     (some "All models failed" : Option String) ≠ some "quota error")⟩

/-- C4 (amended): a completion response that carries content but no
`usage` field makes `generate_blog` return a failed result (the
`response["usage"]` read raises and is caught), with the engine
accumulators untouched; the 4-characters-per-token estimate of
`count_tokens` is only used for the pre-request logging, never to
recover from a missing `usage`. -/
theorem generate_blog_missing_usage
    (engine : EngineState) (td : TopicData) (seo llm : List String)
    (links : LinksTable) (tz : Option (String → Nat)) (complete : Completion)
    (s1 s2 : List Link) (resp : ChatResponse) (m : String)
    (h : attemptModels complete (create_blog_prompt td seo llm links s1)
      models_to_try = some (resp, m))
    (hu : resp.usage = none) :
    (generate_blog engine td seo llm links tz complete s1 s2).2.status
      = Status.failed ∧
    (generate_blog engine td seo llm links tz complete s1 s2).2.error
      = some "KeyError: usage" ∧
    (generate_blog engine td seo llm links tz complete s1 s2).1 = engine := by
  simp [generate_blog, h, hu, failedResult]

/-- Witness for C4 (amended). -/
theorem generate_blog_missing_usage_witness :
    (generate_blog EngineState.init tdEdge ["k1"] ["j1"] tbl4 none
      completeNoUsage [] []).2.status = Status.failed ∧
    (generate_blog EngineState.init tdEdge ["k1"] ["j1"] tbl4 none
      completeNoUsage [] []).2.error = some "KeyError: usage" ∧
    (generate_blog EngineState.init tdEdge ["k1"] ["j1"] tbl4 none
      completeNoUsage [] []).1 = EngineState.init :=
  generate_blog_missing_usage EngineState.init tdEdge ["k1"] ["j1"] tbl4 none
    completeNoUsage [] [] respNoUsage "gpt-4o" rfl rfl

/-- Counterexample to C4 as stated: the response has content
"hello world" and no usage field, and the call returns a failed result,
not the success result the claim promises. -/
theorem generate_blog_no_usage_cx :
    (generate_blog EngineState.init tdEdge ["k1"] ["j1"] tbl4 none
      completeNoUsage [] []).2.status = Status.failed ∧
    Status.failed ≠ Status.success :=
  ⟨rfl, by decide⟩

/-- C7 (amended): a result is a success exactly when its error field is
unset — this equivalence holds unconditionally, for every collaborator;
and provided the external completion reports internally consistent
usage (`total_tokens = prompt_tokens + completion_tokens`, which the
real API guarantees but the code never checks), every success result
satisfies `total_tokens = input_tokens + output_tokens` — the code
copies `usage["total_tokens"]` verbatim rather than computing the
sum, so only that second part needs the consistency assumption. -/
theorem generate_blog_status_error_iff
    (engine : EngineState) (td : TopicData) (seo llm : List String)
    (links : LinksTable) (tz : Option (String → Nat)) (complete : Completion)
    (s1 s2 : List Link) :
    ((generate_blog engine td seo llm links tz complete s1 s2).2.status
        = Status.success ↔
      (generate_blog engine td seo llm links tz complete s1 s2).2.error = none) ∧
    ((∀ m resp,
        complete m system_message (create_blog_prompt td seo llm links s1)
          (maxTokensFor m) = Except.ok resp →
        ∀ u, resp.usage = some u →
          u.total_tokens = u.prompt_tokens + u.completion_tokens) →
      (generate_blog engine td seo llm links tz complete s1 s2).2.status
        = Status.success →
      (generate_blog engine td seo llm links tz complete s1 s2).2.total_tokens
        = (generate_blog engine td seo llm links tz complete s1 s2).2.input_tokens
          + (generate_blog engine td seo llm links tz complete s1 s2).2.output_tokens) := by
  rcases h1 : attemptModels complete (create_blog_prompt td seo llm links s1)
      models_to_try with _ | ⟨resp, m⟩
  · simp [generate_blog, h1, failedResult]
  · rcases h2 : resp.usage with _ | u
    · simp [generate_blog, h1, h2, failedResult]
    · cases h3 : links.hasName with
      | false => simp [generate_blog, h1, h2, h3, failedResult]
      | true =>
        refine ⟨by simp [generate_blog, h1, h2, h3], ?_⟩
        intro hcons _
        have hu := hcons m resp (attemptModels_ok complete _ h1) u h2
        simp [generate_blog, h1, h2, h3, hu]

/-- Witness for C7 (amended) at a consistent successful completion: the
equivalence instantiated, and the sum property with the inner
consistency hypothesis discharged at the concrete collaborator. -/
theorem generate_blog_status_error_iff_witness :
    ((generate_blog EngineState.init tdEdge ["k1"] ["j1"] tbl4 none
        completeOk52 [] []).2.status = Status.success ↔
      (generate_blog EngineState.init tdEdge ["k1"] ["j1"] tbl4 none
        completeOk52 [] []).2.error = none) ∧
    ((generate_blog EngineState.init tdEdge ["k1"] ["j1"] tbl4 none
        completeOk52 [] []).2.status = Status.success →
      (generate_blog EngineState.init tdEdge ["k1"] ["j1"] tbl4 none
        completeOk52 [] []).2.total_tokens
        = (generate_blog EngineState.init tdEdge ["k1"] ["j1"] tbl4 none
            completeOk52 [] []).2.input_tokens
          + (generate_blog EngineState.init tdEdge ["k1"] ["j1"] tbl4 none
            completeOk52 [] []).2.output_tokens) :=
  ⟨(generate_blog_status_error_iff EngineState.init tdEdge ["k1"] ["j1"] tbl4
      none completeOk52 [] []).1,
   (generate_blog_status_error_iff EngineState.init tdEdge ["k1"] ["j1"] tbl4
      none completeOk52 [] []).2
    (by
      intro m resp h u hu
      simp only [completeOk52] at h
      injection h with hr
      subst hr
      simp only [respUsage52, Option.some.injEq] at hu
      subst hu
      rfl)⟩

/-- Counterexample to C7 as stated: a collaborator whose usage reports
`total_tokens = 5` with `prompt_tokens = 1`, `completion_tokens = 2`
produces a success result whose `total_tokens` is not the sum of its
token fields. -/
theorem generate_blog_total_tokens_cx :
    (generate_blog EngineState.init tdEdge ["k1"] ["j1"] tbl4 none
      completeBadTotal [] []).2.status = Status.success ∧
    (generate_blog EngineState.init tdEdge ["k1"] ["j1"] tbl4 none
      completeBadTotal [] []).2.total_tokens ≠
      (generate_blog EngineState.init tdEdge ["k1"] ["j1"] tbl4 none
        completeBadTotal [] []).2.input_tokens
      + (generate_blog EngineState.init tdEdge ["k1"] ["j1"] tbl4 none
        completeBadTotal [] []).2.output_tokens :=
  ⟨rfl, (by decide : (5 : Nat) ≠ 1 + 2)⟩

/-- C10 (amended): provided the `Website` table has its `Name` column
(so the `links_used` read cannot raise), a failed `generate_blog` call
leaves the engine lifetime accumulators exactly as they were; without
that column a successful completion still ends in a failed result, but
only after the accumulators were already incremented (lines 211-213 run
before the `KeyError` of line 227). -/
theorem generate_blog_engine_unchanged_on_failure
    (engine : EngineState) (td : TopicData) (seo llm : List String)
    (links : LinksTable) (tz : Option (String → Nat)) (complete : Completion)
    (s1 s2 : List Link)
    (hname : links.hasName = true)
    (hf : (generate_blog engine td seo llm links tz complete s1 s2).2.status
      = Status.failed) :
    (generate_blog engine td seo llm links tz complete s1 s2).1 = engine := by
  rcases h1 : attemptModels complete (create_blog_prompt td seo llm links s1)
      models_to_try with _ | ⟨resp, m⟩
  · simp [generate_blog, h1]
  · rcases h2 : resp.usage with _ | u
    · simp [generate_blog, h1, h2]
    · exfalso
      simp [generate_blog, h1, h2, hname, failedResult] at hf

/-- Witness for C10 (amended). -/
theorem generate_blog_engine_unchanged_on_failure_witness :
    (generate_blog ⟨7, 8, 9⟩ tdEdge ["k1"] ["j1"] tbl4 none
      completeFailAll [] []).1 = (⟨7, 8, 9⟩ : EngineState) :=
  generate_blog_engine_unchanged_on_failure ⟨7, 8, 9⟩ tdEdge ["k1"] ["j1"]
    tbl4 none completeFailAll [] [] rfl rfl

/-- Counterexample to C10 as stated: with the `Name` column absent and a
successful completion (50 input tokens), the call returns a failed
result while the engine input-token accumulator has moved from 0 to
50. -/
theorem generate_blog_engine_changed_cx :
    (generate_blog EngineState.init tdEdge ["k1"] ["j1"] tblNoName none
      completeOk52 [] []).2.status = Status.failed ∧
    (generate_blog EngineState.init tdEdge ["k1"] ["j1"] tblNoName none
      completeOk52 [] []).1.total_input_tokens = 50 ∧
    EngineState.init.total_input_tokens = 0 ∧
    (50 : Nat) ≠ 0 :=
  ⟨rfl, rfl, rfl, by decide⟩

/-- Pushing one more matched line into a last-wins accumulator replaces
the fallback value. -/
theorem lastValue_cons (pat : List Char) (acc : String) (l : List Char)
    (xs : List (List Char)) :
    lastValue pat acc (l :: xs)
      = lastValue pat (String.mk (pyStrip (pyReplace pat [] l))) xs := by
  cases xs with
  | nil => rfl
  | cons y ys =>
    cases h : (y :: ys).getLast? with
    | some z => simp [lastValue, List.getLast?_cons_cons, h]
    | none => simp [List.getLast?_eq_none_iff] at h

/-- The scanning loop shared by both extractors computes, for each
sentinel kind, the value of the last matching line (the accumulator
survives only when no line matches). -/
theorem metaScan_foldl (lines : List (List Char)) (acc : String × String) :
    lines.foldl metaScanLine acc =
      (lastValue "META_TITLE:".data acc.1 (titleLines lines),
       lastValue "META_DESCRIPTION:".data acc.2 (descLines lines)) := by
  induction lines generalizing acc with
  | nil => rfl
  | cons l ls ih =>
    rw [List.foldl_cons, ih]
    cases h1 : pyStartsWith "META_TITLE:".data l with
    | true =>
      simp [metaScanLine, h1, titleLines, descLines, List.filter_cons,
        lastValue_cons]
    | false =>
      cases h2 : pyStartsWith "META_DESCRIPTION:".data l with
      | true =>
        simp [metaScanLine, h1, h2, titleLines, descLines, List.filter_cons,
          lastValue_cons]
      | false =>
        simp [metaScanLine, h1, h2, titleLines, descLines, List.filter_cons]

/-- C5 (amended): when several lines of a content string begin with
`META_TITLE:` (or `META_DESCRIPTION:`), both meta-extraction operations
return the value from the LAST matching line of each kind — each match
overwrites the accumulator in the scanning loops of
`AirtableBlogWriter.extract_blog_sections` and
`SheetsWriter.extract_meta_from_blog`. -/
theorem meta_extraction_last_wins (content : String) :
    (extract_blog_sections content).meta_title = (lastMatchMeta content).1 ∧
    (extract_blog_sections content).meta_description
      = (lastMatchMeta content).2 ∧
    extract_meta_from_blog content = lastMatchMeta content := by
  have h := metaScan_foldl (pySplit '\n' content.data) ("", "")
  refine ⟨?_, ?_, ?_⟩ <;>
    simp [extract_blog_sections, extract_meta_from_blog, metaScan,
      lastMatchMeta, h]

/-- Counterexample to C5 as stated: on content with duplicate sentinel
lines both extractors return the values of the second (last) lines,
while the first-wins reading of the spec would return those of the
first lines. -/
theorem meta_extraction_first_wins_cx :
    (extract_blog_sections metaDupContent).meta_title = "B" ∧
    (extract_blog_sections metaDupContent).meta_description = "Y" ∧
    extract_meta_from_blog metaDupContent = ("B", "Y") ∧
    firstMatchMeta metaDupContent = ("A", "X") ∧
    ("B" : String) ≠ "A" :=
  ⟨rfl, rfl, rfl, rfl, by decide⟩

/-- C2 (code bug): `create_blog_prompt` renders the bulleted link block
from one pseudo-random sample while the success dictionary rebuilds
`links_used` from an independent second sample (blog_generator.py line
68 versus line 227); with the four-row link table, legitimate sample
draws `[A, B, C]` and `[B, C, D]` yield a result whose `links_used`
names none of which match block entry `A` and which include `D`, a link
the prompt never referenced. -/
theorem generate_blog_links_resampled_cx :
    IsSample tbl4.rows s1cx ∧
    IsSample tbl4.rows s2cx ∧
    links_text tbl4 s1cx = "- A: https://a\n- B: https://b\n- C: https://c" ∧
    s1cx.map tbl4.getName = ["A", "B", "C"] ∧
    (generate_blog EngineState.init tdEdge ["k1"] ["j1"] tbl4 none
      completeOk52 s1cx s2cx).2.links_used = ["B", "C", "D"] ∧
    (generate_blog EngineState.init tdEdge ["k1"] ["j1"] tbl4 none
      completeOk52 s1cx s2cx).2.links_used ≠ s1cx.map tbl4.getName :=
  ⟨⟨by decide, by decide⟩, ⟨by decide, by decide⟩, rfl, rfl, rfl,
   (by decide : (["B", "C", "D"] : List String) ≠ ["A", "B", "C"])⟩

/-- C1 (code bug): `generate_blogs(num_blogs=None)` does not process the
whole corpus: it defaults to `min(5, total_topics)` (main.py line 71),
so a six-topic corpus yields five results, not six — even though the
main menu maps "Generate all blogs from your Excel file" to
`num_blogs=None`. -/
theorem generate_blogs_none_caps_at_five :
    sixTopics.length = 6 ∧
    (generate_blogs PipelineState.init EngineState.init sixTopics
      ["k1"] ["j1"] tbl4 none envAllFail none).1.results.length = 5 ∧
    (5 : Nat) ≠ 6 :=
  ⟨rfl, rfl, by decide⟩

/-- C9: one iteration of the batch loop, when the engine returns a
failed result, leaves all three pipeline running totals unchanged,
emits no sink invocation (no per-blog file write, no Airtable append),
and still appends the stamped failed result to the internal result
list. -/
theorem pipelineStep_failed_frame
    (st : PipelineState) (engine : EngineState) (td : TopicData)
    (seo llm : List String) (links : LinksTable)
    (tz : Option (String → Nat)) (cenv : CallEnv) (i : Nat)
    (hf : (generate_blog engine td seo llm links tz cenv.complete
      cenv.sample1 cenv.sample2).2.status = Status.failed) :
    (pipelineStep st engine td seo llm links tz cenv i).1.total_input_tokens
      = st.total_input_tokens ∧
    (pipelineStep st engine td seo llm links tz cenv i).1.total_output_tokens
      = st.total_output_tokens ∧
    (pipelineStep st engine td seo llm links tz cenv i).1.total_cost
      = st.total_cost ∧
    (pipelineStep st engine td seo llm links tz cenv i).2.2 = [] ∧
    (pipelineStep st engine td seo llm links tz cenv i).1.results
      = st.results ++
        [⟨(generate_blog engine td seo llm links tz cenv.complete
            cenv.sample1 cenv.sample2).2, cenv.now, i + 1⟩] := by
  simp [pipelineStep, hf]

/-- Witness for C9 at a fully failing completion capability. -/
theorem pipelineStep_failed_frame_witness :
    (pipelineStep ⟨1, 2, 3, []⟩ EngineState.init tdEdge ["k1"] ["j1"] tbl4
      none (envAllFail 0) 0).1.total_input_tokens = 1 ∧
    (pipelineStep ⟨1, 2, 3, []⟩ EngineState.init tdEdge ["k1"] ["j1"] tbl4
      none (envAllFail 0) 0).1.total_output_tokens = 2 ∧
    (pipelineStep ⟨1, 2, 3, []⟩ EngineState.init tdEdge ["k1"] ["j1"] tbl4
      none (envAllFail 0) 0).1.total_cost = 3 ∧
    (pipelineStep ⟨1, 2, 3, []⟩ EngineState.init tdEdge ["k1"] ["j1"] tbl4
      none (envAllFail 0) 0).2.2 = [] ∧
    (pipelineStep ⟨1, 2, 3, []⟩ EngineState.init tdEdge ["k1"] ["j1"] tbl4
      none (envAllFail 0) 0).1.results
      = [] ++
        [⟨(generate_blog EngineState.init tdEdge ["k1"] ["j1"] tbl4 none
            (envAllFail 0).complete (envAllFail 0).sample1
            (envAllFail 0).sample2).2, (envAllFail 0).now, 0 + 1⟩] :=
  pipelineStep_failed_frame ⟨1, 2, 3, []⟩ EngineState.init tdEdge
    ["k1"] ["j1"] tbl4 none (envAllFail 0) 0 rfl

/-- C8 (amended): for a run that produced at least one result, the
summary exists and its two ratio fields are explicitly guarded — zero
successful blogs forces `average_cost_per_blog = 0` and zero consumed
tokens forces `cost_per_1k_tokens = 0`; a run over zero topics,
however, produces no summary at all (`save_enhanced_summary` returns
early on an empty result list). -/
theorem save_enhanced_summary_guards
    (st : PipelineState) (h : st.results ≠ []) :
    save_enhanced_summary st = some (generationSummaryOf st) ∧
    (st.results.filter (fun r => r.result.status = Status.success) = [] →
      (generationSummaryOf st).average_cost_per_blog = 0) ∧
    (st.total_input_tokens + st.total_output_tokens = 0 →
      (generationSummaryOf st).cost_per_1k_tokens = 0) := by
  have hne : st.results.isEmpty = false := by
    cases hr : st.results with
    | nil => exact absurd hr h
    | cons a l => simp [hr]
  refine ⟨by simp [save_enhanced_summary, hne], ?_, ?_⟩
  · intro hsucc
    simp [generationSummaryOf, hsucc]
  · intro htok
    simp [generationSummaryOf, htok]

/-- Witness for C8 (amended) on a one-failed-result state. -/
theorem save_enhanced_summary_guards_witness :
    save_enhanced_summary stOneFailed = some (generationSummaryOf stOneFailed) ∧
    (stOneFailed.results.filter
        (fun r => r.result.status = Status.success) = [] →
      (generationSummaryOf stOneFailed).average_cost_per_blog = 0) ∧
    (stOneFailed.total_input_tokens + stOneFailed.total_output_tokens = 0 →
      (generationSummaryOf stOneFailed).cost_per_1k_tokens = 0) :=
  save_enhanced_summary_guards stOneFailed (by decide)

/-- Counterexample to C8 as stated: running the pipeline over zero
topics leaves the result list empty, and `save_enhanced_summary` then
produces no RunSummary at all instead of one with zeroed ratio
fields. -/
theorem save_enhanced_summary_zero_topics_cx :
    save_enhanced_summary
      (generate_blogs PipelineState.init EngineState.init [] ["k1"] ["j1"]
        tbl4 none envAllFail none).1 = none :=
  rfl
